import Mathlib

/-!
Shallow embedding of `pytorch_lightning/accelerators/accelerator.py`
(the `Accelerator` hardware-abstraction layer) and proofs of its
specified properties.

The two plugin kinds (training-type plugin and precision plugin) are
external collaborators of this module; they are embedded as records of
the capability set the accelerator uses, with their behaviour left
abstract (arbitrary function fields).  Lifecycle methods are given an
event-trace semantics: each accelerator operation returns its updated
state together with the list of plugin calls it performed, in order.
Machine data (tensors, batches, optimizer state) is embedded as an
inductive tree of tensor leaves, non-tensor leaves and nested
sequences / mappings.
-/

namespace PLAccel

/-- A compute device (`torch.device`). -/
inductive Device
  | cpu
  | cuda (idx : Nat)
  | other (name : String)
deriving DecidableEq, Repr

/-- Arbitrarily nested Python data as handled by
`apply_to_collection` / `move_data_to_device`: tensor leaves (carrying
the device they live on and an abstract payload), non-tensor leaves,
and nested sequences / mappings. -/
inductive PyData
  | tensor (dev : Device) (payload : Int)
  | scalar (v : Int)
  | str (s : String)
  | pylist (xs : List PyData)
  | pydict (xs : List (String × PyData))

mutual

/-- Modelled from the spec: `apply_to_collection(v, torch.Tensor, fn, ...)`
(from `pytorch_lightning.utilities.apply_func`, which is not part of the
excerpt) recurses through sequences and mappings and applies the given
function to every tensor leaf, leaving non-tensor leaves unchanged. -/
def apply_to_collection_tensors (f : PyData → PyData) : PyData → PyData
  | .tensor dev p => f (.tensor dev p)
  | .scalar v => .scalar v
  | .str s => .str s
  | .pylist xs => .pylist (apply_to_collection_tensorsL f xs)
  | .pydict xs => .pydict (apply_to_collection_tensorsD f xs)

/-- Sequence part of `apply_to_collection_tensors`. -/
def apply_to_collection_tensorsL (f : PyData → PyData) : List PyData → List PyData
  | [] => []
  | x :: xs => apply_to_collection_tensors f x :: apply_to_collection_tensorsL f xs

/-- Mapping part of `apply_to_collection_tensors`. -/
def apply_to_collection_tensorsD (f : PyData → PyData) :
    List (String × PyData) → List (String × PyData)
  | [] => []
  | (k, v) :: xs => (k, apply_to_collection_tensors f v) :: apply_to_collection_tensorsD f xs

end

/-- `tensor.to(device)`: relocate a tensor leaf, leave anything else alone. -/
def tensor_to (d : Device) : PyData → PyData
  | .tensor _ p => .tensor d p
  | x => x

/-- Modelled from the spec: `move_data_to_device(batch, device)` performs
the generic recursive device move (every tensor leaf is relocated to
`device`, everything else is unchanged). -/
def move_data_to_device (data : PyData) (d : Device) : PyData :=
  apply_to_collection_tensors (tensor_to d) data

/-- A loss value carried through the backward pipeline. -/
abbrev Loss := Int

/-- An opaque handle for a (possibly wrapped) model module. -/
abbrev ModelRef := Nat

/-- An opaque handle for a learning-rate scheduler. -/
abbrev Sched := Nat

/-- The part of a `LightningModule` the accelerator uses: its custom
batch-transfer hook `_apply_batch_transfer_handler(batch, device,
dataloader_idx)`. -/
structure LightningModule where
  apply_batch_transfer_handler : PyData → Device → Nat → PyData

/-- An optimizer: its per-parameter state mapping (`opt.state`).  The
default state export `state_dict()` of the external `torch` optimizer is
modelled below as returning this mapping. -/
structure Optimizer where
  state : List (String × PyData)

/-- `torch.optim.Optimizer.state_dict()`, the optimizer's own default
state export (external to the excerpt). -/
def Optimizer.state_dict (o : Optimizer) : List (String × PyData) :=
  o.state

/-- Modelled from the spec: the trainer run modes (`TrainerFn` from
`pytorch_lightning.trainer.states`, which is not part of the excerpt). -/
inductive TrainerFn
  | fitting
  | validating
  | testing
  | predicting
  | tuning
deriving DecidableEq, Repr

/-- Modelled from the spec: the trainer's state object, of which the
accelerator only reads `state.fn`. -/
structure TrainerState where
  fn : TrainerFn

/-- Modelled from the spec: the driving trainer, of which the accelerator
only reads `trainer.state`. -/
structure Trainer where
  state : TrainerState

/-- The enumerated mixed-precision backend kinds
(`pytorch_lightning.utilities.enums.AMPType`). -/
inductive AMPType
  | APEX
  | NATIVE
deriving DecidableEq, Repr

/-- The concrete class of a precision plugin, as a variant tag: the
`isinstance` checks of `amp_backend` classify a plugin as the Apex
mixed-precision variant, the native-AMP variant, or anything else. -/
inductive PrecisionKind
  | apex
  | native
  | fullPrecision
  | bf16
  | double
deriving DecidableEq, Repr

/-- The capability set of a precision plugin used by the accelerator
(interface per the spec; concrete behaviour left abstract). -/
structure PrecisionPlugin where
  kind : PrecisionKind
  connect : ModelRef → List Optimizer → List Sched → ModelRef × List Optimizer × List Sched
  pre_backward : Option LightningModule → Loss → Loss
  post_backward : Option LightningModule → Loss → Loss

/-- The capability set of a training-type plugin used by the accelerator
(interface per the spec; concrete behaviour left abstract).
`is_data_parallel` is the variant tag for the
`isinstance(_, DataParallelPlugin)` check; `optimizer_state` is the
optional custom state extractor looked up with `getattr`.  The
training-type `pre_backward` / `post_backward` hooks are given return
values so that the accelerator's discarding of those values is
observable. -/
structure TrainingTypePlugin where
  is_data_parallel : Bool
  setup_optimizers_in_pre_dispatch : Bool
  root_device : Device
  model : ModelRef
  lightning_module : Option LightningModule
  init_optimizers : Trainer → Option LightningModule → List Optimizer × List Sched × List Nat
  pre_backward : Loss → Loss
  post_backward : Loss → Loss
  optimizer_state : Option (Optimizer → List (String × PyData))

/-- Observable plugin calls performed by the accelerator's lifecycle
methods, in program order; the backward events record the loss argument
passed to the hook. -/
inductive Event
  | ttSetup
  | callSetupOptimizers
  | callInitOptimizers
  | precisionConnect
  | moveOptimizerState
  | ttPreDispatch
  | precisionPreDispatch
  | ttPreBackward (loss : Loss)
  | precisionPreBackward (loss : Loss)
  | precisionBackward (loss : Loss)
  | precisionPostBackward (loss : Loss)
  | ttPostBackward (loss : Loss)
deriving DecidableEq, Repr

/-- The `Accelerator`: one precision plugin, one training-type plugin,
and the live lists of optimizers, schedulers and step frequencies. -/
structure Accelerator where
  precision_plugin : PrecisionPlugin
  training_type_plugin : TrainingTypePlugin
  optimizers : List Optimizer
  lr_schedulers : List Sched
  optimizer_frequencies : List Nat

/-- `Accelerator.__init__`: the three lists start empty. -/
def Accelerator.make (pp : PrecisionPlugin) (tt : TrainingTypePlugin) : Accelerator :=
  ⟨pp, tt, [], [], []⟩

/-- `Accelerator.model` (getter): forwards to the training-type plugin. -/
def Accelerator.model (a : Accelerator) : ModelRef :=
  a.training_type_plugin.model

/-- `Accelerator.model` (setter): forwards to the training-type plugin. -/
def Accelerator.set_model (a : Accelerator) (m : ModelRef) : Accelerator :=
  { a with training_type_plugin := { a.training_type_plugin with model := m } }

/-- `Accelerator.lightning_module`: forwards to the training-type plugin. -/
def Accelerator.lightning_module (a : Accelerator) : Option LightningModule :=
  a.training_type_plugin.lightning_module

/-- `Accelerator.root_device`: forwards to the training-type plugin. -/
def Accelerator.root_device (a : Accelerator) : Device :=
  a.training_type_plugin.root_device

/-- `Accelerator.setup_optimizers(trainer)`: returns early unless
`trainer.state.fn` is `FITTING` or `TUNING`; otherwise stores the three
lists returned by the training-type plugin's `init_optimizers`. -/
def Accelerator.setup_optimizers (a : Accelerator) (t : Trainer) : Accelerator × List Event :=
  if t.state.fn ≠ TrainerFn.fitting ∧ t.state.fn ≠ TrainerFn.tuning then (a, [])
  else
    let r := a.training_type_plugin.init_optimizers t a.lightning_module
    ({ a with optimizers := r.1, lr_schedulers := r.2.1, optimizer_frequencies := r.2.2 },
     [Event.callInitOptimizers])

/-- `Accelerator.setup_training_type_plugin()`: calls the training-type
plugin's `setup()` (opaque side effect on the plugin). -/
def Accelerator.setup_training_type_plugin (a : Accelerator) : Accelerator × List Event :=
  (a, [Event.ttSetup])

/-- `Accelerator.setup_precision_plugin()`: calls the precision plugin's
`connect(model, optimizers, lr_schedulers)` and overwrites the model,
the optimizers and the lr schedulers with the returned triple.  The
`optimizer_frequencies` list is not touched. -/
def Accelerator.setup_precision_plugin (a : Accelerator) : Accelerator × List Event :=
  let r := a.precision_plugin.connect a.model a.optimizers a.lr_schedulers
  (({ a with optimizers := r.2.1, lr_schedulers := r.2.2 }).set_model r.1,
   [Event.precisionConnect])

/-- `Accelerator.setup(trainer)`: training-type setup, then (unless the
plugin defers optimizer construction to pre-dispatch) optimizer setup,
then precision-plugin connect. -/
def Accelerator.setup (a : Accelerator) (t : Trainer) : Accelerator × List Event :=
  let s1 := a.setup_training_type_plugin
  let s2 :=
    if ¬ s1.1.training_type_plugin.setup_optimizers_in_pre_dispatch then
      let r := s1.1.setup_optimizers t
      (r.1, Event.callSetupOptimizers :: r.2)
    else (s1.1, [])
  let s3 := s2.1.setup_precision_plugin
  (s3.1, s1.2 ++ s2.2 ++ s3.2)

/-- The rewriting `_move_optimizer_state` applies to one optimizer-state
entry: `apply_to_collection(v, torch.Tensor, move_data_to_device, device)`. -/
def move_state_entry (dev : Device) (v : PyData) : PyData :=
  apply_to_collection_tensors (fun t => move_data_to_device t dev) v

/-- The per-optimizer part of `_move_optimizer_state`: rewrite every
entry of `opt.state` in place. -/
def Optimizer.move_state (dev : Device) (o : Optimizer) : Optimizer :=
  ⟨o.state.map fun kv => (kv.1, move_state_entry dev kv.2)⟩

/-- `Accelerator._move_optimizer_state(device)`: the target device
defaults to the root device (`device = device or self.root_device`);
every optimizer's state entries are rewritten by
`apply_to_collection(v, Tensor, move_data_to_device, device)`. -/
def Accelerator._move_optimizer_state (a : Accelerator) (device : Option Device) : Accelerator :=
  let dev := device.getD a.root_device
  { a with optimizers := a.optimizers.map (Optimizer.move_state dev) }

/-- `Accelerator.pre_dispatch(trainer)`: move optimizer state to the
target device, training-type pre-dispatch, then (if the plugin deferred
optimizer construction) optimizer setup, then precision pre-dispatch. -/
def Accelerator.pre_dispatch (a : Accelerator) (t : Trainer) : Accelerator × List Event :=
  let a1 := a._move_optimizer_state none
  let s2 :=
    if a1.training_type_plugin.setup_optimizers_in_pre_dispatch then
      let r := a1.setup_optimizers t
      (r.1, Event.callSetupOptimizers :: r.2)
    else (a1, [])
  (s2.1, Event.moveOptimizerState :: Event.ttPreDispatch :: s2.2 ++ [Event.precisionPreDispatch])

/-- Which branch `batch_to_device` took: the model's custom
batch-transfer hook, or the generic recursive device move. -/
inductive TransferPath
  | customHook (dev : Device) (idx : Nat)
  | genericMove (dev : Device)
deriving DecidableEq, Repr

/-- `Accelerator.batch_to_device(batch, device, dataloader_idx)`: the
device defaults to the root device; if a lightning module is attached
and the training-type plugin is not the data-parallel variant, the
module's custom batch-transfer hook is called; otherwise the generic
recursive device move is performed. -/
def Accelerator.batch_to_device (a : Accelerator) (batch : PyData) (device : Option Device)
    (dataloader_idx : Nat) : PyData × TransferPath :=
  let dev := device.getD a.root_device
  match a.lightning_module with
  | some m =>
      if a.training_type_plugin.is_data_parallel then
        (move_data_to_device batch dev, .genericMove dev)
      else
        (m.apply_batch_transfer_handler batch dev dataloader_idx, .customHook dev dataloader_idx)
  | none => (move_data_to_device batch dev, .genericMove dev)

/-- `Accelerator.backward(closure_loss, ...)`: training-type
`pre_backward` (return value discarded), precision `pre_backward`
(rebinding `closure_loss`), precision `backward`, precision
`post_backward` (rebinding `closure_loss` again), training-type
`post_backward`; returns the final `closure_loss`. -/
def Accelerator.backward (a : Accelerator) (closure_loss : Loss) : Loss × List Event :=
  let _discarded₁ := a.training_type_plugin.pre_backward closure_loss
  let e1 := Event.ttPreBackward closure_loss
  let l1 := a.precision_plugin.pre_backward a.lightning_module closure_loss
  let e2 := Event.precisionPreBackward closure_loss
  let e3 := Event.precisionBackward l1
  let l2 := a.precision_plugin.post_backward a.lightning_module l1
  let e4 := Event.precisionPostBackward l1
  let _discarded₂ := a.training_type_plugin.post_backward l2
  let e5 := Event.ttPostBackward l2
  (l2, [e1, e2, e3, e4, e5])

/-- `Accelerator.amp_backend`: classifies the precision plugin by its
concrete class (`isinstance` checks, in order: Apex, then native AMP). -/
def Accelerator.amp_backend (a : Accelerator) : Option AMPType :=
  if a.precision_plugin.kind = PrecisionKind.apex then some AMPType.APEX
  else if a.precision_plugin.kind = PrecisionKind.native then some AMPType.NATIVE
  else none

/-- `Accelerator.optimizer_state(optimizer)`:
`getattr(self.training_type_plugin, "optimizer_state", lambda x: x.state_dict())(optimizer)` —
the training-type plugin's custom extractor when it defines one,
otherwise the optimizer's own default state export. -/
def Accelerator.optimizer_state (a : Accelerator) (optimizer : Optimizer) :
    List (String × PyData) :=
  match a.training_type_plugin.optimizer_state with
  | some f => f optimizer
  | none => optimizer.state_dict

/-- A Python exception observable from this layer. -/
inductive PyExc
  | notImplementedError
deriving DecidableEq, Repr

/-- `Accelerator.get_device_stats(device)`: the base class raises
`NotImplementedError` unconditionally. -/
def Accelerator.get_device_stats (a : Accelerator) (device : Device) :
    Except PyExc (List (String × PyData)) :=
  Except.error PyExc.notImplementedError

/-- `Accelerator.auto_device_count()`: the method body is only its
docstring and `Accelerator` does not use `ABCMeta`, so invoking the
static method on the base class succeeds and returns `None` (Python's
implicit return) instead of raising. -/
def Accelerator.auto_device_count : Except PyExc (Option Int) :=
  Except.ok none

/-! Spec-side notions used to state the claims, written from the spec's
words rather than from the source. -/

mutual

/-- Spec-side: forget the devices of all tensor leaves (rewrite them to
a fixed marker device), keeping the nested structure, the tensor
payloads and every non-tensor leaf.  Two values with equal erasure have
identical nested structure and identical non-tensor leaves. -/
def erase_devices : PyData → PyData
  | .tensor _ p => .tensor Device.cpu p
  | .scalar v => .scalar v
  | .str s => .str s
  | .pylist xs => .pylist (erase_devicesL xs)
  | .pydict xs => .pydict (erase_devicesD xs)

/-- Sequence part of `erase_devices`. -/
def erase_devicesL : List PyData → List PyData
  | [] => []
  | x :: xs => erase_devices x :: erase_devicesL xs

/-- Mapping part of `erase_devices`. -/
def erase_devicesD : List (String × PyData) → List (String × PyData)
  | [] => []
  | (k, v) :: xs => (k, erase_devices v) :: erase_devicesD xs

end

mutual

/-- Spec-side: every tensor leaf of the value lives on device `d`. -/
def all_tensors_on (d : Device) : PyData → Bool
  | .tensor dev _ => dev == d
  | .scalar _ => true
  | .str _ => true
  | .pylist xs => all_tensors_onL d xs
  | .pydict xs => all_tensors_onD d xs

/-- Sequence part of `all_tensors_on`. -/
def all_tensors_onL (d : Device) : List PyData → Bool
  | [] => true
  | x :: xs => all_tensors_on d x && all_tensors_onL d xs

/-- Mapping part of `all_tensors_on`. -/
def all_tensors_onD (d : Device) : List (String × PyData) → Bool
  | [] => true
  | (_, v) :: xs => all_tensors_on d v && all_tensors_onD d xs

end

/-- Spec-side classifier for `amp_backend`: APEX for the Apex variant,
NATIVE for the native-AMP variant, none for any other variant. -/
def amp_backend_of_kind : PrecisionKind → Option AMPType
  | .apex => some AMPType.APEX
  | .native => some AMPType.NATIVE
  | _ => none

/-! Concrete plugin instances used to instantiate the theorems. -/

/-- A precision plugin whose `connect` is the identity. -/
def idPrecisionPlugin : PrecisionPlugin :=
  { kind := PrecisionKind.fullPrecision
    connect := fun m os ss => (m, os, ss)
    pre_backward := fun _ l => l + 1
    post_backward := fun _ l => 2 * l }

/-- A training-type plugin that builds one optimizer with one step
frequency and defines no custom `optimizer_state` extractor. -/
def simpleTTPlugin : TrainingTypePlugin :=
  { is_data_parallel := false
    setup_optimizers_in_pre_dispatch := false
    root_device := Device.cuda 0
    model := 0
    lightning_module := none
    init_optimizers := fun _ _ => ([⟨[("a", PyData.scalar 1)]⟩], [7], [1])
    pre_backward := fun l => l
    post_backward := fun l => l
    optimizer_state := none }

/-- An accelerator over the two simple plugins, as freshly constructed. -/
def accSimple : Accelerator := Accelerator.make idPrecisionPlugin simpleTTPlugin

/-- A precision plugin whose `connect` drops the optimizer list. -/
def dropPrecisionPlugin : PrecisionPlugin :=
  { kind := PrecisionKind.fullPrecision
    connect := fun m _ _ => (m, [], [])
    pre_backward := fun _ l => l
    post_backward := fun _ l => l }

/-- An accelerator whose precision plugin drops the optimizer list on
`connect`, as freshly constructed. -/
def accDrop : Accelerator := Accelerator.make dropPrecisionPlugin simpleTTPlugin

/-- A trainer in the fitting run mode. -/
def fitTrainer : Trainer := ⟨⟨TrainerFn.fitting⟩⟩

/-- A trainer in the testing run mode. -/
def testTrainer : Trainer := ⟨⟨TrainerFn.testing⟩⟩

/-- Claim C2: for every input loss, `backward(closure_loss, ...)` invokes
exactly five hooks in the fixed order training-type `pre_backward`,
precision `pre_backward`, precision `backward`, precision
`post_backward`, training-type `post_backward`; the loss given to
precision `backward` is the output of precision `pre_backward`, the loss
given to precision `post_backward` is that same value, and the method
returns the final loss value produced by the pipeline. -/
theorem C2_backward_pipeline (a : Accelerator) (l : Loss) :
    a.backward l
      = (a.precision_plugin.post_backward a.lightning_module
           (a.precision_plugin.pre_backward a.lightning_module l),
         [Event.ttPreBackward l,
          Event.precisionPreBackward l,
          Event.precisionBackward (a.precision_plugin.pre_backward a.lightning_module l),
          Event.precisionPostBackward (a.precision_plugin.pre_backward a.lightning_module l),
          Event.ttPostBackward (a.precision_plugin.post_backward a.lightning_module
            (a.precision_plugin.pre_backward a.lightning_module l))]) := rfl

/-- Claim C7: in `backward`, the loss handed to the precision-plugin
stages and the value finally returned are independent of whatever the
training-type plugin's `pre_backward` and `post_backward` hooks return:
two runs differing only in those hooks produce the identical result and
the identical hook-argument trace. -/
theorem C7_tt_hooks_cannot_alter_loss (a : Accelerator) (f g : Loss → Loss) (l : Loss) :
    ({ a with training_type_plugin :=
        { a.training_type_plugin with pre_backward := f, post_backward := g } }
      : Accelerator).backward l
      = a.backward l := rfl

/-- Claim C9: `amp_backend` returns APEX when the precision plugin is the
Apex mixed-precision variant, NATIVE when it is the native-AMP variant,
and none for any other variant. -/
theorem C9_amp_backend_classification (a : Accelerator) :
    a.amp_backend = amp_backend_of_kind a.precision_plugin.kind := by
  cases h : a.precision_plugin.kind <;>
    simp [Accelerator.amp_backend, amp_backend_of_kind, h]

/-- Claim C6 (evaluation of the code): `get_device_stats` on the base
`Accelerator` raises `NotImplementedError` for every device, but
`auto_device_count` — whose body is only its docstring, on a class
without `ABCMeta` — returns `None` instead of raising. -/
theorem C6_base_unimplemented (a : Accelerator) (d : Device) :
    a.get_device_stats d = Except.error PyExc.notImplementedError
    ∧ Accelerator.auto_device_count = Except.ok none :=
  ⟨rfl, rfl⟩

/-- Claim C10: `optimizer_state(optimizer)` returns the result of the
training-type plugin's `optimizer_state` override when the plugin
defines one, and otherwise returns the optimizer's own default state
export. -/
theorem C10_optimizer_state_fallback (a : Accelerator) (o : Optimizer) :
    (∀ f, a.training_type_plugin.optimizer_state = some f → a.optimizer_state o = f o)
    ∧ (a.training_type_plugin.optimizer_state = none → a.optimizer_state o = o.state_dict) := by
  constructor
  · intro f h
    simp [Accelerator.optimizer_state, h]
  · intro h
    simp [Accelerator.optimizer_state, h]

/-- Witness for C10: a plugin without the override and an optimizer whose
state is `{"a": 1}` yield `{"a": 1}`. -/
theorem C10_optimizer_state_witness :
    accSimple.optimizer_state ⟨[("a", PyData.scalar 1)]⟩ = [("a", PyData.scalar 1)] := by
  have h := (C10_optimizer_state_fallback accSimple ⟨[("a", PyData.scalar 1)]⟩).2 rfl
  simpa [Optimizer.state_dict] using h

/-- Claim C3: whenever the trainer's run mode is neither fitting nor
tuning, `setup_optimizers(trainer)` leaves the optimizers, lr-scheduler
and optimizer-frequency lists unchanged and does not call the
training-type plugin's `init_optimizers`; otherwise it stores the three
lists returned by `init_optimizers`. -/
theorem C3_setup_optimizers_guard (a : Accelerator) (t : Trainer) :
    (t.state.fn ≠ TrainerFn.fitting ∧ t.state.fn ≠ TrainerFn.tuning →
      a.setup_optimizers t = (a, []))
    ∧ (t.state.fn = TrainerFn.fitting ∨ t.state.fn = TrainerFn.tuning →
      a.setup_optimizers t
        = ({ a with
              optimizers := (a.training_type_plugin.init_optimizers t a.lightning_module).1,
              lr_schedulers := (a.training_type_plugin.init_optimizers t a.lightning_module).2.1,
              optimizer_frequencies :=
                (a.training_type_plugin.init_optimizers t a.lightning_module).2.2 },
           [Event.callInitOptimizers])) := by
  constructor
  · intro h
    simp [Accelerator.setup_optimizers, h]
  · intro h
    have h1 : ¬ (t.state.fn ≠ TrainerFn.fitting ∧ t.state.fn ≠ TrainerFn.tuning) := by
      tauto
    simp [Accelerator.setup_optimizers, h1]

/-- Witness for C3: on a testing-mode trainer, `setup_optimizers` is a
no-op and performs no plugin call. -/
theorem C3_setup_optimizers_witness :
    accSimple.setup_optimizers testTrainer = (accSimple, []) :=
  (C3_setup_optimizers_guard accSimple testTrainer).1 (by decide)

/-- Claim C4: `batch_to_device` never calls the model's custom
batch-transfer hook when the training-type plugin is the data-parallel
variant; it calls that hook, with the resolved device (defaulting to the
root device), whenever a lightning module is attached and the plugin is
not data-parallel; and with no lightning module attached it performs the
generic recursive device move. -/
theorem C4_batch_to_device_branches (a : Accelerator) (batch : PyData) (device : Option Device)
    (idx : Nat) :
    (a.training_type_plugin.is_data_parallel = true →
      a.batch_to_device batch device idx
        = (move_data_to_device batch (device.getD a.root_device),
           TransferPath.genericMove (device.getD a.root_device)))
    ∧ (∀ m, a.lightning_module = some m → a.training_type_plugin.is_data_parallel = false →
      a.batch_to_device batch device idx
        = (m.apply_batch_transfer_handler batch (device.getD a.root_device) idx,
           TransferPath.customHook (device.getD a.root_device) idx))
    ∧ (a.lightning_module = none →
      a.batch_to_device batch device idx
        = (move_data_to_device batch (device.getD a.root_device),
           TransferPath.genericMove (device.getD a.root_device))) := by
  refine ⟨?_, ?_, ?_⟩
  · intro h
    cases hm : a.lightning_module <;> simp [Accelerator.batch_to_device, hm, h]
  · intro m hm h
    simp [Accelerator.batch_to_device, hm, h]
  · intro hm
    simp [Accelerator.batch_to_device, hm]

/-- Witness for C4: with no lightning module attached, a CPU tensor batch
is moved to the root device by the generic recursive move. -/
theorem C4_batch_to_device_witness :
    accSimple.batch_to_device (PyData.tensor Device.cpu 5) none 0
      = (PyData.tensor (Device.cuda 0) 5, TransferPath.genericMove (Device.cuda 0)) := by
  have h := (C4_batch_to_device_branches accSimple (PyData.tensor Device.cpu 5) none 0).2.2 rfl
  simpa [move_data_to_device, apply_to_collection_tensors, tensor_to, Accelerator.root_device,
         accSimple, simpleTTPlugin, Accelerator.make] using h

/-- Claim C1: for every pair of plugins, a full run's lifecycle calls
optimizer construction exactly once: `setup(trainer)` invokes
`setup_optimizers(trainer)` if and only if the training-type plugin's
`setup_optimizers_in_pre_dispatch` flag is false, `pre_dispatch(trainer)`
invokes it if and only if the flag is true (never both), and within
`setup` the training-type plugin's `setup()` is always called before the
precision plugin's `connect()`. -/
theorem C1_optimizer_construction_exactly_once (a : Accelerator) (t : Trainer) :
    (Event.callSetupOptimizers ∈ (a.setup t).2
       ↔ a.training_type_plugin.setup_optimizers_in_pre_dispatch = false)
    ∧ (Event.callSetupOptimizers ∈ ((a.setup t).1.pre_dispatch t).2
       ↔ a.training_type_plugin.setup_optimizers_in_pre_dispatch = true)
    ∧ ((a.setup t).2 ++ ((a.setup t).1.pre_dispatch t).2).count Event.callSetupOptimizers = 1
    ∧ (a.setup t).2.head? = some Event.ttSetup
    ∧ (a.setup t).2.getLast? = some Event.precisionConnect := by
  cases hflag : a.training_type_plugin.setup_optimizers_in_pre_dispatch <;>
    cases ht : t.state.fn <;>
      simp [Accelerator.setup, Accelerator.pre_dispatch, Accelerator.setup_training_type_plugin,
            Accelerator.setup_optimizers, Accelerator.setup_precision_plugin,
            Accelerator._move_optimizer_state, Accelerator.set_model, Accelerator.lightning_module,
            Accelerator.model, Accelerator.root_device, hflag, ht,
            List.count_append, List.count_cons]

/-- Structural characterization of the rewriting `_move_optimizer_state`
applies to one state entry: the device erasure is preserved (identical
nested structure, identical tensor payloads, identical non-tensor
leaves) and every tensor leaf of the result lives on the target
device. -/
theorem move_state_entry_props (dev : Device) :
    (∀ v : PyData,
        erase_devices (apply_to_collection_tensors (fun t => move_data_to_device t dev) v)
          = erase_devices v
        ∧ all_tensors_on dev (apply_to_collection_tensors (fun t => move_data_to_device t dev) v)
          = true)
    ∧ (∀ xs : List (String × PyData),
        erase_devicesD (apply_to_collection_tensorsD (fun t => move_data_to_device t dev) xs)
          = erase_devicesD xs
        ∧ all_tensors_onD dev (apply_to_collection_tensorsD (fun t => move_data_to_device t dev) xs)
          = true)
    ∧ (∀ xs : List PyData,
        erase_devicesL (apply_to_collection_tensorsL (fun t => move_data_to_device t dev) xs)
          = erase_devicesL xs
        ∧ all_tensors_onL dev (apply_to_collection_tensorsL (fun t => move_data_to_device t dev) xs)
          = true) := by
  refine apply_to_collection_tensors.mutual_induct (fun t => move_data_to_device t dev)
    (fun v =>
      erase_devices (apply_to_collection_tensors (fun t => move_data_to_device t dev) v)
        = erase_devices v
      ∧ all_tensors_on dev (apply_to_collection_tensors (fun t => move_data_to_device t dev) v)
        = true)
    (fun xs =>
      erase_devicesD (apply_to_collection_tensorsD (fun t => move_data_to_device t dev) xs)
        = erase_devicesD xs
      ∧ all_tensors_onD dev (apply_to_collection_tensorsD (fun t => move_data_to_device t dev) xs)
        = true)
    (fun xs =>
      erase_devicesL (apply_to_collection_tensorsL (fun t => move_data_to_device t dev) xs)
        = erase_devicesL xs
      ∧ all_tensors_onL dev (apply_to_collection_tensorsL (fun t => move_data_to_device t dev) xs)
        = true)
    ?_ ?_ ?_ ?_ ?_ ?_ ?_ ?_ ?_ <;>
    intros <;>
      simp_all [apply_to_collection_tensors, apply_to_collection_tensorsL,
                apply_to_collection_tensorsD, move_data_to_device, tensor_to,
                erase_devices, erase_devicesL, erase_devicesD,
                all_tensors_on, all_tensors_onL, all_tensors_onD]

/-- Claim C8: for every device option and every optimizer in the list,
`_move_optimizer_state` rewrites each optimizer-state entry to a value
of identical nested structure (equal device erasure: same shape, same
tensor payloads, unchanged non-tensor leaves) in which every tensor leaf
is relocated to the target device; the target device defaults to the
training-type plugin's root device when none is given. -/
theorem C8_move_optimizer_state_relocates (a : Accelerator) (device : Option Device)
    (v : PyData) :
    ((a._move_optimizer_state device).optimizers
        = a.optimizers.map (Optimizer.move_state (device.getD a.root_device)))
    ∧ erase_devices (move_state_entry (device.getD a.root_device) v) = erase_devices v
    ∧ all_tensors_on (device.getD a.root_device)
        (move_state_entry (device.getD a.root_device) v) = true
    ∧ a._move_optimizer_state none = a._move_optimizer_state (some a.root_device) := by
  refine ⟨rfl, ?_, ?_, rfl⟩
  · exact ((move_state_entry_props (device.getD a.root_device)).1 v).1
  · exact ((move_state_entry_props (device.getD a.root_device)).1 v).2

/-- Claim C5 fails on the code: with a precision plugin whose `connect`
drops the optimizer list, `setup` on a fitting trainer ends with a
non-empty `optimizer_frequencies` list whose length differs from the
length of `optimizers`, because `setup_precision_plugin` replaces the
optimizer list without replacing the frequency list. -/
theorem C5_counterexample_partial_mutation :
    ¬ ((accDrop.setup fitTrainer).1.optimizer_frequencies ≠ [] →
        (accDrop.setup fitTrainer).1.optimizers.length
          = (accDrop.setup fitTrainer).1.optimizer_frequencies.length) := by
  intro h
  have h1 : (accDrop.setup fitTrainer).1.optimizer_frequencies = [1] := rfl
  have h2 : (accDrop.setup fitTrainer).1.optimizers = [] := rfl
  have h3 := h (by rw [h1]; simp)
  rw [h1, h2] at h3
  simp at h3

/-- Claim C5 as amended: `setup_optimizers` replaces the optimizer,
scheduler and frequency lists together, but `setup_precision_plugin`
replaces `optimizers` and `lr_schedulers` while leaving
`optimizer_frequencies` unchanged; consequently, starting from a freshly
constructed accelerator, after `setup(trainer)` the lengths of
`optimizers` and `optimizer_frequencies` agree whenever frequencies are
used, provided `init_optimizers` returns a non-empty frequency list only
of the same length as its optimizer list and the precision plugin's
`connect` preserves the length of the optimizer list. -/
theorem C5_invariant_after_setup (a : Accelerator) (t : Trainer)
    (hopt : a.optimizers = []) (hfreq : a.optimizer_frequencies = [])
    (hinit : ∀ tr m,
      (a.training_type_plugin.init_optimizers tr m).2.2 ≠ [] →
      ((a.training_type_plugin.init_optimizers tr m).2.2).length
        = ((a.training_type_plugin.init_optimizers tr m).1).length)
    (hconn : ∀ m os ss, ((a.precision_plugin.connect m os ss).2.1).length = os.length) :
    ((a.setup t).1.optimizer_frequencies ≠ [] →
      (a.setup t).1.optimizers.length = (a.setup t).1.optimizer_frequencies.length)
    ∧ (a.setup t).1.optimizer_frequencies
        = (if a.training_type_plugin.setup_optimizers_in_pre_dispatch = false
              ∧ (t.state.fn = TrainerFn.fitting ∨ t.state.fn = TrainerFn.tuning)
           then (a.training_type_plugin.init_optimizers t a.lightning_module).2.2
           else a.optimizer_frequencies) := by
  cases hflag : a.training_type_plugin.setup_optimizers_in_pre_dispatch <;>
    cases ht : t.state.fn <;>
      simp_all [Accelerator.setup, Accelerator.setup_training_type_plugin,
                Accelerator.setup_optimizers, Accelerator.setup_precision_plugin,
                Accelerator.set_model, Accelerator.lightning_module, Accelerator.model,
                hflag, ht, hconn]

/-- Witness for the amended C5: on the simple accelerator (identity
`connect`, one optimizer with one frequency) a fitting-mode `setup`
establishes the length invariant. -/
theorem C5_invariant_witness :
    (accSimple.setup fitTrainer).1.optimizers.length
      = (accSimple.setup fitTrainer).1.optimizer_frequencies.length := by
  have h1 : (accSimple.setup fitTrainer).1.optimizer_frequencies = [1] := rfl
  exact (C5_invariant_after_setup accSimple fitTrainer rfl rfl
    (fun _ _ _ => rfl) (fun _ _ _ => rfl)).1 (by rw [h1]; simp)

end PLAccel
